import Mathlib

/-!
Verification of the KarokeProcessor audio pipeline specification against a
shallow embedding of `backend/src/services/audioProcessor.js` and its caller
`backend/src/routes/audio.js`.

The embedding follows the JavaScript source: JavaScript `%` on integers is
`Int.tmod` (truncated remainder, sign of the dividend), `Array.prototype.indexOf`
returns `-1` when the element is absent, and an out-of-bounds array read yields
`undefined`, modelled as `none`.
-/

namespace Karaoke

/-- Sharp-spelled note table of `calculateNewKey` (`const notes = [...]`). -/
def notes : List String :=
  ["C", "C#", "D", "D#", "E", "F"] ++ ["F#", "G", "G#", "A", "A#", "B"]

/-- Flat-spelled note table of `calculateNewKey` (`const flatNotes = [...]`). -/
def flatNotes : List String :=
  ["C", "Db", "D", "Eb", "E", "F", "Gb", "G", "Ab", "A", "Bb", "B"]

/-- Key table of `detectKey` (`const commonKeys = [...]`). -/
def commonKeys : List String :=
  ["C", "G", "D", "A", "E", "B", "F#", "F", "Bb", "Eb", "Ab", "Db"]

/-- JavaScript `Array.prototype.indexOf`: index of the first occurrence,
`-1` when absent. -/
def jsIndexOf (l : List String) (x : String) : Int :=
  match l.findIdx? (fun y => y == x) with
  | some i => (i : Int)
  | none => -1

/-- JavaScript array read `l[i]`: `undefined` (here `none`) out of bounds. -/
def jsArrayGet (l : List String) (i : Int) : Option String :=
  if 0 ≤ i then l.get? i.toNat else none

/-- Embedding of `AudioProcessor.getIntervalName`: the 25-entry interval table
with the generic fallback string for out-of-table values. -/
def getIntervalName (semitones : Int) : String :=
  if semitones = 0 then "Perfect Unison"
  else if semitones = 1 then "Minor Second"
  else if semitones = 2 then "Major Second"
  else if semitones = 3 then "Minor Third"
  else if semitones = 4 then "Major Third"
  else if semitones = 5 then "Perfect Fourth"
  else if semitones = 6 then "Tritone"
  else if semitones = 7 then "Perfect Fifth"
  else if semitones = 8 then "Minor Sixth"
  else if semitones = 9 then "Major Sixth"
  else if semitones = 10 then "Minor Seventh"
  else if semitones = 11 then "Major Seventh"
  else if semitones = 12 then "Perfect Octave"
  else if semitones = -1 then "Minor Second (down)"
  else if semitones = -2 then "Major Second (down)"
  else if semitones = -3 then "Minor Third (down)"
  else if semitones = -4 then "Major Third (down)"
  else if semitones = -5 then "Perfect Fourth (down)"
  else if semitones = -6 then "Tritone (down)"
  else if semitones = -7 then "Perfect Fifth (down)"
  else if semitones = -8 then "Minor Sixth (down)"
  else if semitones = -9 then "Major Sixth (down)"
  else if semitones = -10 then "Minor Seventh (down)"
  else if semitones = -11 then "Major Seventh (down)"
  else if semitones = -12 then "Perfect Octave (down)"
  else toString semitones.natAbs ++ " semitones " ++
       (if 0 < semitones then "up" else "down")

/-- Result record of `calculateNewKey`. `newKey` is an `Option` because a
JavaScript array read out of bounds yields `undefined`. -/
structure KeyChangeInfo where
  originalKey : String
  originalMode : String
  newKey : Option String
  newMode : String
  semitoneChange : Int
  interval : String
deriving Repr, DecidableEq

/-- Embedding of `AudioProcessor.calculateNewKey`. The note index is looked up
in `notes`, then in `flatNotes`; an unknown key throws. The new index is
`(noteIndex + semitones + 12) % 12` with JavaScript `%` (`Int.tmod`), and the
new name is taken from `notes` when `semitones >= 0`, else from `flatNotes`. -/
def calculateNewKey (originalKey mode : String) (semitones : Int) :
    Except String KeyChangeInfo :=
  let idxSharp := jsIndexOf notes originalKey
  let noteIndex := if idxSharp = -1 then jsIndexOf flatNotes originalKey else idxSharp
  if noteIndex = -1 then
    .error ("Invalid key: " ++ originalKey)
  else
    let newIndex := Int.tmod (noteIndex + semitones + 12) 12
    let newKey := if 0 ≤ semitones then jsArrayGet notes newIndex
                  else jsArrayGet flatNotes newIndex
    .ok { originalKey := originalKey
          originalMode := mode
          newKey := newKey
          newMode := mode
          semitoneChange := semitones
          interval := getIntervalName semitones }

/-- Result record of `detectKey`. `key` is an `Option` because a JavaScript
array read out of bounds yields `undefined`. -/
structure KeyEstimate where
  key : Option String
  mode : String
  confidence : ℚ
  note : String
deriving Repr, DecidableEq

/-- Pure core of `AudioProcessor.detectKey`: the two `Math.random()` draws are
passed in as `r1` and `r2` (each in `[0,1)` at a call site). The key is
`commonKeys[Math.floor(r1 * commonKeys.length)]`, the mode is major exactly
when `r2 > 0.5`, and the confidence is the fixed `0.75`. -/
def detectKeyResult (r1 r2 : ℚ) : KeyEstimate :=
  { key := jsArrayGet commonKeys (Int.floor (r1 * 12))
    mode := if 1/2 < r2 then "major" else "minor"
    confidence := 3/4
    note := "This is a placeholder key detection. For production, integrate with audio analysis libraries like Essentia.js or use Spotify Web API." }

/-- Probed stream attributes returned by `getAudioMetadata`. -/
structure AudioMetadata where
  duration : ℚ
  bitrate : Int
  sampleRate : Int
  channels : Int
  codec : String
  size : Int
  format : String
deriving Repr, DecidableEq

/-- Input of the Prober: whether `ffprobe` can parse the container, whether an
audio stream is present, and the attribute values when both hold. -/
structure ProbeInput where
  parseable : Bool
  hasAudioStream : Bool
  meta : AudioMetadata
deriving Repr, DecidableEq

/-- Embedding of `AudioProcessor.getAudioMetadata`: rejects when `ffprobe`
fails to parse the container, rejects when no stream has `codec_type` audio,
and otherwise resolves with the probed attributes. -/
def getAudioMetadata (a : ProbeInput) : Except String AudioMetadata :=
  if ¬ a.parseable then .error "Failed to read audio metadata"
  else if ¬ a.hasAudioStream then .error "No audio stream found in file"
  else .ok a.meta

/-- Embedding of `AudioProcessor.detectKey`: the function receives an audio
path but never reads it — it resolves with `detectKeyResult` unconditionally. -/
def detectKey (_a : ProbeInput) (r1 r2 : ℚ) : Except String KeyEstimate :=
  .ok (detectKeyResult r1 r2)

/-- Flat model of the uploads directory: newest write first. -/
abbrev FileSystem := List (String × List Nat)

/-- Lookup of a path's bytes, newest write first. -/
def FileSystem.read (fs : FileSystem) (p : String) : Option (List Nat) :=
  match fs with
  | [] => none
  | (q, b) :: rest => if q = p then some b else FileSystem.read rest p

/-- Write of bytes at a path. -/
def FileSystem.write (fs : FileSystem) (p : String) (b : List Nat) : FileSystem :=
  (p, b) :: fs

/-- Errors thrown or rejected by `transposeAudio`, one constructor per
`throw`/`reject` site; each carries the message of the source. -/
inductive TransposeError where
  | semitoneRange : TransposeError
  | copyFailed (msg : String) : TransposeError
  | processingFailed (msg : String) : TransposeError
deriving Repr, DecidableEq

/-- Outcome of the external `ffmpeg` run started by `transposeAudio`: either
the encode finishes and `encoded` is at the output path, or it errors with
`msg` having possibly already written `leftover` bytes to the output path. -/
inductive FfmpegOutcome where
  | success (encoded : List Nat) : FfmpegOutcome
  | failure (msg : String) (leftover : Option (List Nat)) : FfmpegOutcome
deriving Repr, DecidableEq

/-- Embedding of `AudioProcessor.transposeAudio` at the file-system level.
The range check comes first; `semitones === 0` does `fs.copyFile` and
resolves; otherwise the `ffmpeg` chain runs and its outcome is `run`. The
error handler only rejects with the wrapped message — it deletes nothing, so
whatever `ffmpeg` left at the output path stays. -/
def transposeAudio (fs : FileSystem) (inputPath : String) (semitones : Int)
    (outputPath : String) (run : FfmpegOutcome) :
    FileSystem × Except TransposeError String :=
  if semitones < -12 ∨ 12 < semitones then
    (fs, .error .semitoneRange)
  else if semitones = 0 then
    match fs.read inputPath with
    | some bytes => (fs.write outputPath bytes, .ok outputPath)
    | none => (fs, .error (.copyFailed "ENOENT"))
  else
    match run with
    | .success encoded => (fs.write outputPath encoded, .ok outputPath)
    | .failure msg leftover =>
        (match leftover with
         | some b => fs.write outputPath b
         | none => fs,
         .error (.processingFailed msg))

/-- Idealised audio signal for the filter-chain semantics of `transposeAudio`:
nominal sample rate, channel count, play duration in seconds, and the factor
by which all frequencies of the content have been scaled (1 = as recorded). -/
structure AudioData where
  sampleRate : ℝ
  channels : ℕ
  duration : ℝ
  pitch : ℝ

/-- Semantics of the `asetrate=r` filter: the samples are kept and relabelled
with nominal rate `r`, so duration and pitch scale by `sampleRate / r` and
`r / sampleRate` respectively. -/
noncomputable def asetrate (r : ℝ) (a : AudioData) : AudioData :=
  { sampleRate := r
    channels := a.channels
    duration := a.duration * a.sampleRate / r
    pitch := a.pitch * r / a.sampleRate }

/-- Semantics of the `atempo=t` filter: playback speed is multiplied by `t`
without changing pitch, so duration is divided by `t`. -/
noncomputable def atempo (t : ℝ) (a : AudioData) : AudioData :=
  { a with duration := a.duration / t }

/-- Semantics of output resampling (`.audioFrequency(r)`): pitch and duration
are preserved, the sample rate becomes `r`. -/
def aresampleTo (r : ℝ) (a : AudioData) : AudioData :=
  { a with sampleRate := r }

/-- Semantics of `.audioChannels(c)`: down/upmix to `c` channels. -/
def setChannels (c : ℕ) (a : AudioData) : AudioData :=
  { a with channels := c }

/-- The `pitchRatio` of `transposeAudio`: `Math.pow(2, semitones / 12)`. -/
noncomputable def pitchRatio (semitones : Int) : ℝ :=
  (2 : ℝ) ^ ((semitones : ℝ) / 12)

/-- Signal-level semantics of the nonzero branch of `transposeAudio`: the
filter chain `asetrate=44100*pitchRatio`, `atempo=1/pitchRatio` followed by
the output options `.audioFrequency(44100)` and `.audioChannels(2)`. The
`44100` in the `asetrate` argument is hard-coded in the source. -/
noncomputable def transposeFilterChain (semitones : Int) (a : AudioData) : AudioData :=
  setChannels 2 (aresampleTo 44100
    (atempo (1 / pitchRatio semitones) (asetrate (44100 * pitchRatio semitones) a)))

/-- Probe input whose container `ffprobe` cannot parse. -/
def unreadableStream : ProbeInput :=
  { parseable := false
    hasAudioStream := false
    meta := { duration := 0, bitrate := 0, sampleRate := 0, channels := 0,
              codec := "", size := 0, format := "" } }

/-- A 48 kHz mono three-minute input, used to refute the claims that the
chain's behaviour is independent of the input's sample rate and channels. -/
noncomputable def input48k : AudioData :=
  { sampleRate := 48000, channels := 1, duration := 180, pitch := 1 }

/-- A 44.1 kHz stereo three-minute input matching the hard-coded constants. -/
noncomputable def input441 : AudioData :=
  { sampleRate := 44100, channels := 2, duration := 180, pitch := 1 }

/-- The code's index `(t + 12) % 12` agrees with the spec's normalisation
`((t % 12) + 12) % 12` (JavaScript `%` on both sides) on the range reachable
from a note index in `[0, 11]` and a shift in `[-12, 12]`. -/
lemma tmod_shift_norm (t : Int) (h1 : -12 ≤ t) (h2 : t ≤ 23) :
    Int.tmod (t + 12) 12 = Int.tmod (Int.tmod t 12 + 12) 12 := by
  interval_cases t <;> decide

/-- Evaluation of `calculateNewKey` on any valid key name: the name with
pitch-class index `i` spelled from either table resolves to index `i`, and the
result record follows the source verbatim. -/
lemma calculateNewKey_valid (i : ℕ) (hi : i < 12) (k mode : String) (s : Int)
    (hk : k = notes.getD i "" ∨ k = flatNotes.getD i "") :
    calculateNewKey k mode s =
      .ok { originalKey := k
            originalMode := mode
            newKey := if 0 ≤ s then jsArrayGet notes (Int.tmod ((i : Int) + s + 12) 12)
                      else jsArrayGet flatNotes (Int.tmod ((i : Int) + s + 12) 12)
            newMode := mode
            semitoneChange := s
            interval := getIntervalName s } := by
  interval_cases i <;> rcases hk with rfl | rfl <;> rfl

/-- C2: for every pitch-class index `i` in `[0, 11]` (named from either
spelling table) and every semitone shift `s` in `[-12, 12]`, `calculateNewKey`
succeeds and its new key is the table entry at the spec's normalised index
`((i + s) % 12 + 12) % 12`, with the mode returned unchanged. -/
theorem C2_calculateNewKey_mod12 (i : ℕ) (hi : i < 12) (k mode : String) (s : Int)
    (h1 : -12 ≤ s) (h2 : s ≤ 12)
    (hk : k = notes.getD i "" ∨ k = flatNotes.getD i "") :
    ∃ r, calculateNewKey k mode s = .ok r ∧
      r.newKey = jsArrayGet (if 0 ≤ s then notes else flatNotes)
        (Int.tmod (Int.tmod ((i : Int) + s) 12 + 12) 12) ∧
      r.newMode = mode := by
  refine ⟨_, calculateNewKey_valid i hi k mode s hk, ?_, rfl⟩
  have ht : Int.tmod ((i : Int) + s + 12) 12 =
      Int.tmod (Int.tmod ((i : Int) + s) 12 + 12) 12 :=
    tmod_shift_norm _ (by omega) (by omega)
  by_cases hs : 0 ≤ s
  · simp only [if_pos hs, ht]
  · simp only [if_neg hs, ht]

/-- C2 witness: A minor shifted down 3 semitones lands on table index 6. -/
theorem C2_calculateNewKey_mod12_witness :
    ∃ r, calculateNewKey "A" "minor" (-3) = .ok r ∧
      r.newKey = jsArrayGet (if (0 : Int) ≤ -3 then notes else flatNotes)
        (Int.tmod (Int.tmod (((9 : ℕ) : Int) + (-3)) 12 + 12) 12) ∧
      r.newMode = "minor" :=
  C2_calculateNewKey_mod12 9 (by omega) "A" "minor" (-3) (by omega) (by omega)
    (Or.inl rfl)

/-- C6 counterexample: the zero shift is not the identity on flat-spelled
input names — `Bb` comes back as its sharp enharmonic `A#`. -/
theorem C6_zero_shift_flat_counterexample :
    calculateNewKey "Bb" "major" 0 =
      .ok { originalKey := "Bb", originalMode := "major", newKey := some "A#",
            newMode := "major", semitoneChange := 0, interval := "Perfect Unison" } ∧
    ("A#" : String) ≠ "Bb" :=
  ⟨rfl, by decide⟩

/-- C6 amended: the zero shift returns the sharp spelling of the input's
pitch class with mode unchanged and interval Perfect Unison; this is the
identity on sharp-spelled names, while a flat-spelled name comes back as its
sharp enharmonic. -/
theorem C6_zero_shift_identity (i : ℕ) (hi : i < 12) (mode : String) :
    calculateNewKey (notes.getD i "") mode 0 =
      .ok { originalKey := notes.getD i "", originalMode := mode,
            newKey := some (notes.getD i ""), newMode := mode,
            semitoneChange := 0, interval := "Perfect Unison" } ∧
    calculateNewKey (flatNotes.getD i "") mode 0 =
      .ok { originalKey := flatNotes.getD i "", originalMode := mode,
            newKey := some (notes.getD i ""), newMode := mode,
            semitoneChange := 0, interval := "Perfect Unison" } := by
  interval_cases i <;> exact ⟨rfl, rfl⟩

/-- C6 amended witness: zero shift on G major is the identity. -/
theorem C6_zero_shift_identity_witness :
    calculateNewKey (notes.getD 7 "") "major" 0 =
      .ok { originalKey := notes.getD 7 "", originalMode := "major",
            newKey := some (notes.getD 7 ""), newMode := "major",
            semitoneChange := 0, interval := "Perfect Unison" } ∧
    calculateNewKey (flatNotes.getD 7 "") "major" 0 =
      .ok { originalKey := flatNotes.getD 7 "", originalMode := "major",
            newKey := some (notes.getD 7 ""), newMode := "major",
            semitoneChange := 0, interval := "Perfect Unison" } :=
  C6_zero_shift_identity 7 (by omega) "major"

/-- C10: on a valid key and an in-range shift, the result's name is read from
the sharp table `notes` when the shift is nonnegative and from the flat table
`flatNotes` when it is negative, at the code's index `(i + s + 12) % 12`. -/
theorem C10_spelling_table_by_sign (i : ℕ) (hi : i < 12) (k mode : String) (s : Int)
    (h1 : -12 ≤ s) (h2 : s ≤ 12)
    (hk : k = notes.getD i "" ∨ k = flatNotes.getD i "") :
    ∃ r, calculateNewKey k mode s = .ok r ∧
      (0 ≤ s → r.newKey = jsArrayGet notes (Int.tmod ((i : Int) + s + 12) 12)) ∧
      (s < 0 → r.newKey = jsArrayGet flatNotes (Int.tmod ((i : Int) + s + 12) 12)) := by
  refine ⟨_, calculateNewKey_valid i hi k mode s hk, ?_, ?_⟩
  · intro hs; simp only [if_pos hs]
  · intro hs; simp only [if_neg (not_le.mpr hs)]

/-- C10 witness: an up-shift landing on index 6 is spelled F sharp, the
down-shift landing on the same index is spelled G flat. -/
theorem C10_spelling_table_by_sign_witness :
    (∃ r, calculateNewKey "C" "major" 6 = .ok r ∧
      ((0 : Int) ≤ 6 → r.newKey = jsArrayGet notes (Int.tmod (((0 : ℕ) : Int) + 6 + 12) 12)) ∧
      ((6 : Int) < 0 → r.newKey = jsArrayGet flatNotes (Int.tmod (((0 : ℕ) : Int) + 6 + 12) 12))) ∧
    (∃ r, calculateNewKey "A" "minor" (-3) = .ok r ∧
      ((0 : Int) ≤ -3 → r.newKey = jsArrayGet notes (Int.tmod (((9 : ℕ) : Int) + (-3) + 12) 12)) ∧
      ((-3 : Int) < 0 → r.newKey = jsArrayGet flatNotes (Int.tmod (((9 : ℕ) : Int) + (-3) + 12) 12))) :=
  ⟨C10_spelling_table_by_sign 0 (by omega) "C" "major" 6 (by omega) (by omega) (Or.inl rfl),
   C10_spelling_table_by_sign 9 (by omega) "A" "minor" (-3) (by omega) (by omega) (Or.inl rfl)⟩

/-- C5: `transposeAudio` rejects with the range error exactly when the shift
is outside `[-12, 12]`, and an out-of-range shift returns with the file
system untouched, whatever the external encoder would have done. -/
theorem C5_range_error_iff (fs : FileSystem) (ip : String) (s : Int) (op : String)
    (run : FfmpegOutcome) :
    ((transposeAudio fs ip s op run).2 = .error .semitoneRange ↔ (s < -12 ∨ 12 < s)) ∧
    ((s < -12 ∨ 12 < s) → transposeAudio fs ip s op run = (fs, .error .semitoneRange)) := by
  by_cases hrange : s < -12 ∨ 12 < s
  · simp [transposeAudio, hrange]
  · refine ⟨⟨fun h => ?_, fun h => absurd h hrange⟩, fun h => absurd h hrange⟩
    exfalso
    by_cases h0 : s = 0
    · subst h0
      cases hfr : fs.read ip <;> simp [transposeAudio, hrange, hfr] at h
    · cases run with
      | success e => simp [transposeAudio, hrange, h0] at h
      | failure m lo => cases lo <;> simp [transposeAudio, hrange, h0] at h

/-- C5 witness: shifting by 13 semitones is rejected with nothing written. -/
theorem C5_range_error_iff_witness :
    transposeAudio [("in.mp3", [1, 2])] "in.mp3" 13 "out.mp3" (.success [7]) =
      ([("in.mp3", [1, 2])], .error .semitoneRange) :=
  (C5_range_error_iff [("in.mp3", [1, 2])] "in.mp3" 13 "out.mp3" (.success [7])).2
    (by omega)

/-- C4: a zero shift copies the input bytes verbatim to the output path —
the result does not depend on the encoder at all, the output's bytes equal the
input's, and hence any byte-determined probe agrees on both. -/
theorem C4_zero_shift_verbatim_copy (fs : FileSystem) (ip op : String)
    (run : FfmpegOutcome) (bytes : List Nat) (h : fs.read ip = some bytes) :
    transposeAudio fs ip 0 op run = (fs.write op bytes, .ok op) ∧
    (transposeAudio fs ip 0 op run).1.read op = fs.read ip ∧
    ∀ probe : List Nat → AudioMetadata,
      ((transposeAudio fs ip 0 op run).1.read op).map probe = (fs.read ip).map probe := by
  have hmain : transposeAudio fs ip 0 op run = (fs.write op bytes, .ok op) := by
    simp [transposeAudio, h]
  refine ⟨hmain, ?_, ?_⟩
  · rw [hmain, h]; simp [FileSystem.write, FileSystem.read]
  · intro probe; rw [hmain, h]; simp [FileSystem.write, FileSystem.read]

/-- C4 witness: a concrete zero-shift call copies the three input bytes. -/
theorem C4_zero_shift_verbatim_copy_witness :
    transposeAudio [("song.mp3", [1, 2, 3])] "song.mp3" 0 "out.mp3" (.success [7]) =
      (FileSystem.write [("song.mp3", [1, 2, 3])] "out.mp3" [1, 2, 3], .ok "out.mp3") ∧
    (transposeAudio [("song.mp3", [1, 2, 3])] "song.mp3" 0 "out.mp3" (.success [7])).1.read "out.mp3"
      = FileSystem.read [("song.mp3", [1, 2, 3])] "song.mp3" ∧
    ∀ probe : List Nat → AudioMetadata,
      ((transposeAudio [("song.mp3", [1, 2, 3])] "song.mp3" 0 "out.mp3" (.success [7])).1.read "out.mp3").map probe
        = (FileSystem.read [("song.mp3", [1, 2, 3])] "song.mp3").map probe :=
  C4_zero_shift_verbatim_copy [("song.mp3", [1, 2, 3])] "song.mp3" "out.mp3"
    (.success [7]) [1, 2, 3] rfl

/-- C9 counterexample: a failed encode that had already written a byte to the
output path rejects with the wrapped message, yet the byte is still readable
at the output path afterwards — nothing was cleaned up. -/
theorem C9_partial_output_left_counterexample :
    (transposeAudio [("song.mp3", [1, 2, 3])] "song.mp3" 5 "out.mp3"
        (.failure "boom" (some [9]))).2 = .error (.processingFailed "boom") ∧
    (transposeAudio [("song.mp3", [1, 2, 3])] "song.mp3" 5 "out.mp3"
        (.failure "boom" (some [9]))).1.read "out.mp3" = some [9] :=
  ⟨rfl, rfl⟩

/-- C9 amended: any encoder failure on an in-range nonzero shift rejects with
an error wrapping the underlying message, but performs no cleanup: the file
system keeps exactly whatever the encoder left at the output path. -/
theorem C9_failure_wraps_without_cleanup (fs : FileSystem) (ip op msg : String)
    (s : Int) (h1 : -12 ≤ s) (h2 : s ≤ 12) (h0 : s ≠ 0)
    (leftover : Option (List Nat)) :
    transposeAudio fs ip s op (.failure msg leftover) =
      ((match leftover with
        | some b => fs.write op b
        | none => fs), .error (.processingFailed msg)) := by
  have hrange : ¬ (s < -12 ∨ 12 < s) := by omega
  simp [transposeAudio, hrange, h0]

/-- C9 amended witness: a concrete failing run keeps its partial byte. -/
theorem C9_failure_wraps_without_cleanup_witness :
    transposeAudio [("song.mp3", [1, 2, 3])] "song.mp3" 5 "out.mp3"
        (.failure "boom" (some [9])) =
      ((match (some [9] : Option (List Nat)) with
        | some b => FileSystem.write [("song.mp3", [1, 2, 3])] "out.mp3" b
        | none => [("song.mp3", [1, 2, 3])]), .error (.processingFailed "boom")) :=
  C9_failure_wraps_without_cleanup [("song.mp3", [1, 2, 3])] "song.mp3" "out.mp3"
    "boom" 5 (by omega) (by omega) (by omega) (some [9])

/-- C7 counterexample: the draw landing on table index 8 yields the
flat-spelled `Bb`, which is not in the sharp-spelled 12-note set, even though
the confidence is the fixed `0.75`. -/
theorem C7_estimate_flat_spelling_counterexample :
    (detectKeyResult (2/3) 0).key = some "Bb" ∧
    ("Bb" : String) ∉ notes ∧
    (detectKeyResult (2/3) 0).confidence = 3/4 := by
  refine ⟨?_, by decide, rfl⟩
  show jsArrayGet commonKeys (Int.floor ((2/3 : ℚ) * 12)) = some "Bb"
  have h8 : Int.floor ((2/3 : ℚ) * 12) = 8 := by norm_num
  rw [h8]; rfl

/-- C7 amended: every estimate's key comes from the 12-entry `commonKeys`
table (which is flat-spelled in four entries, not the sharp-spelled chromatic
set), its mode is major or minor, and its confidence is exactly `0.75`;
the index is `Math.floor` of the uniform draw scaled by the table length. -/
theorem C7_estimate_from_commonKeys (r1 r2 : ℚ) (h0 : 0 ≤ r1) (h1 : r1 < 1) :
    (∃ k, (detectKeyResult r1 r2).key = some k ∧ k ∈ commonKeys) ∧
    ((detectKeyResult r1 r2).mode = "major" ∨ (detectKeyResult r1 r2).mode = "minor") ∧
    (detectKeyResult r1 r2).confidence = 3/4 := by
  refine ⟨?_, ?_, rfl⟩
  · have hf0 : 0 ≤ Int.floor (r1 * 12) := Int.floor_nonneg.mpr (by positivity)
    have hf1 : Int.floor (r1 * 12) < 12 := by
      have h12 : r1 * 12 < 12 := by nlinarith
      exact Int.floor_lt.mpr (by exact_mod_cast h12)
    have hlen : (Int.floor (r1 * 12)).toNat < commonKeys.length := by
      simp only [commonKeys, List.length]
      omega
    obtain ⟨k, hk⟩ : ∃ k, commonKeys.get? (Int.floor (r1 * 12)).toNat = some k :=
      ⟨_, List.get?_eq_get hlen⟩
    refine ⟨k, ?_, List.get?_mem hk⟩
    show jsArrayGet commonKeys (Int.floor (r1 * 12)) = some k
    rw [jsArrayGet, if_pos hf0, hk]
  · by_cases hm : 1/2 < r2
    · left
      show (if (1 : ℚ)/2 < r2 then "major" else "minor") = "major"
      rw [if_pos hm]
    · right
      show (if (1 : ℚ)/2 < r2 then "major" else "minor") = "minor"
      rw [if_neg hm]

/-- C7 amended witness: the draw `2/3` selects `Bb` from `commonKeys`. -/
theorem C7_estimate_from_commonKeys_witness :
    (∃ k, (detectKeyResult (2/3) 0).key = some k ∧ k ∈ commonKeys) ∧
    ((detectKeyResult (2/3) 0).mode = "major" ∨ (detectKeyResult (2/3) 0).mode = "minor") ∧
    (detectKeyResult (2/3) 0).confidence = 3/4 :=
  C7_estimate_from_commonKeys (2/3) 0 (by norm_num) (by norm_num)

/-- C8 counterexample: on a stream the Prober rejects as unreadable,
`detectKey` still resolves with an estimate instead of an error. -/
theorem C8_detectKey_succeeds_counterexample :
    getAudioMetadata unreadableStream = .error "Failed to read audio metadata" ∧
    detectKey unreadableStream 0 0 = .ok (detectKeyResult 0 0) :=
  ⟨rfl, rfl⟩

/-- C8 amended: `detectKey` never fails — even under exactly the condition
that makes the Prober fail, it resolves with an estimate, because it never
reads the stream at all. -/
theorem C8_detectKey_ok_on_unreadable (a : ProbeInput) (r1 r2 : ℚ) (e : String)
    (h : getAudioMetadata a = .error e) :
    ∃ k, detectKey a r1 r2 = .ok k :=
  ⟨detectKeyResult r1 r2, rfl⟩

/-- C8 amended witness: the unreadable stream still gets an estimate. -/
theorem C8_detectKey_ok_on_unreadable_witness :
    ∃ k, detectKey unreadableStream 0 0 = .ok k :=
  C8_detectKey_ok_on_unreadable unreadableStream 0 0
    "Failed to read audio metadata" rfl

/-- The pitch ratio `2^(s/12)` is positive. -/
lemma pitchRatio_pos (s : Int) : 0 < pitchRatio s :=
  Real.rpow_pos_of_pos (by norm_num) _

/-- The pitch ratio at a full octave up is exactly 2. -/
lemma pitchRatio_twelve : pitchRatio 12 = 2 := by
  rw [pitchRatio, show (((12 : Int) : ℝ) / 12) = 1 by norm_num, Real.rpow_one]

/-- Pitch after the whole chain: only `asetrate` touches pitch, and its
argument is the hard-coded `44100 * pitchRatio`, not the input's rate. -/
lemma transposeFilterChain_pitch (s : Int) (a : AudioData) :
    (transposeFilterChain s a).pitch = a.pitch * (44100 * pitchRatio s) / a.sampleRate :=
  rfl

/-- Sample rate after the chain is the normalised 44100. -/
lemma transposeFilterChain_sampleRate (s : Int) (a : AudioData) :
    (transposeFilterChain s a).sampleRate = 44100 :=
  rfl

/-- Channel count after the chain is the normalised 2. -/
lemma transposeFilterChain_channels (s : Int) (a : AudioData) :
    (transposeFilterChain s a).channels = 2 :=
  rfl

/-- Duration after the chain: the `atempo` reciprocal cancels the pitch-ratio
factor of `asetrate`, leaving `duration * sampleRate / 44100`. -/
lemma transposeFilterChain_duration (s : Int) (a : AudioData) :
    (transposeFilterChain s a).duration = a.duration * a.sampleRate / 44100 := by
  have hρ : pitchRatio s ≠ 0 := ne_of_gt (pitchRatio_pos s)
  show (a.duration * a.sampleRate / (44100 * pitchRatio s)) / (1 / pitchRatio s)
      = a.duration * a.sampleRate / 44100
  field_simp
  ring

/-- C1 counterexample: shifting a 48 kHz input up an octave does not multiply
its pitch by `pitchRatio 12 = 2` — the `asetrate` argument is `44100 * 2`, not
`48000 * 2`, so the applied shift is not 12 semitones. -/
theorem C1_pitch_shift_counterexample :
    (transposeFilterChain 12 input48k).pitch ≠ input48k.pitch * pitchRatio 12 := by
  rw [transposeFilterChain_pitch, pitchRatio_twelve]
  show (1 : ℝ) * (44100 * 2) / 48000 ≠ 1 * 2
  norm_num

/-- C1 amended: for an in-range nonzero shift the chain multiplies the pitch
by `44100 * pitchRatio s / sampleRate` — the `44100` being hard-coded — so the
shift applied equals `s` semitones exactly when the input is at 44100 Hz. -/
theorem C1_pitch_factor_hardcoded (s : Int) (hs : s ≠ 0) (hlo : -12 ≤ s)
    (hhi : s ≤ 12) (a : AudioData) (hR : 0 < a.sampleRate) (hp : 0 < a.pitch) :
    (transposeFilterChain s a).pitch = a.pitch * (44100 * pitchRatio s) / a.sampleRate ∧
    ((transposeFilterChain s a).pitch = a.pitch * pitchRatio s ↔ a.sampleRate = 44100) := by
  refine ⟨transposeFilterChain_pitch s a, ?_⟩
  rw [transposeFilterChain_pitch]
  have hρ := pitchRatio_pos s
  rw [div_eq_iff (ne_of_gt hR)]
  constructor
  · intro h
    have h' : (a.pitch * pitchRatio s) * 44100 = (a.pitch * pitchRatio s) * a.sampleRate := by
      linear_combination h
    exact (mul_left_cancel₀ (ne_of_gt (mul_pos hp hρ)) h').symm
  · intro h
    rw [h]
    ring

/-- C1 amended witness: at 44100 Hz the octave shift is exact. -/
theorem C1_pitch_factor_hardcoded_witness :
    (transposeFilterChain 12 input441).pitch
        = input441.pitch * (44100 * pitchRatio 12) / input441.sampleRate ∧
    ((transposeFilterChain 12 input441).pitch = input441.pitch * pitchRatio 12 ↔
      input441.sampleRate = 44100) :=
  C1_pitch_factor_hardcoded 12 (by omega) (by omega) (by omega) input441
    (by norm_num [input441]) (by norm_num [input441])

/-- C3 counterexample: on the 48 kHz mono input, the chain's output matches
neither the input's sample rate, nor its channel count, nor its duration. -/
theorem C3_invariants_counterexample :
    ¬ ((transposeFilterChain 12 input48k).sampleRate = input48k.sampleRate ∧
       (transposeFilterChain 12 input48k).channels = input48k.channels ∧
       (transposeFilterChain 12 input48k).duration = input48k.duration) := by
  rintro ⟨h1, -, -⟩
  rw [transposeFilterChain_sampleRate] at h1
  have : (44100 : ℝ) = 48000 := h1
  norm_num at this

/-- C3 amended: for an in-range nonzero shift the output is normalised to
44100 Hz and 2 channels regardless of the input, and the duration becomes
`duration * sampleRate / 44100`, which preserves the input's duration exactly
when the input is at 44100 Hz. -/
theorem C3_output_normalised (s : Int) (hs : s ≠ 0) (hlo : -12 ≤ s) (hhi : s ≤ 12)
    (a : AudioData) (hR : 0 < a.sampleRate) (hd : 0 < a.duration) :
    (transposeFilterChain s a).sampleRate = 44100 ∧
    (transposeFilterChain s a).channels = 2 ∧
    (transposeFilterChain s a).duration = a.duration * a.sampleRate / 44100 ∧
    ((transposeFilterChain s a).duration = a.duration ↔ a.sampleRate = 44100) := by
  refine ⟨rfl, rfl, transposeFilterChain_duration s a, ?_⟩
  rw [transposeFilterChain_duration]
  rw [div_eq_iff (by norm_num : (44100 : ℝ) ≠ 0)]
  constructor
  · intro h
    exact mul_left_cancel₀ (ne_of_gt hd) h
  · intro h
    rw [h]

/-- C3 amended witness: a 44.1 kHz stereo input keeps its duration. -/
theorem C3_output_normalised_witness :
    (transposeFilterChain 12 input441).sampleRate = 44100 ∧
    (transposeFilterChain 12 input441).channels = 2 ∧
    (transposeFilterChain 12 input441).duration
        = input441.duration * input441.sampleRate / 44100 ∧
    ((transposeFilterChain 12 input441).duration = input441.duration ↔
      input441.sampleRate = 44100) :=
  C3_output_normalised 12 (by omega) (by omega) (by omega) input441
    (by norm_num [input441]) (by norm_num [input441])

end Karaoke

section SpotChecks
open Karaoke
example : calculateNewKey "C" "major" 7 =
    .ok { originalKey := "C", originalMode := "major", newKey := some "G",
          newMode := "major", semitoneChange := 7, interval := "Perfect Fifth" } := rfl
example : calculateNewKey "A" "minor" (-3) =
    .ok { originalKey := "A", originalMode := "minor", newKey := some "Gb",
          newMode := "minor", semitoneChange := -3, interval := "Minor Third (down)" } := rfl
example : calculateNewKey "Bb" "major" 0 =
    .ok { originalKey := "Bb", originalMode := "major", newKey := some "A#",
          newMode := "major", semitoneChange := 0, interval := "Perfect Unison" } := rfl
example : (calculateNewKey "H" "major" 0).isOk = false := by decide
end SpotChecks
